import Mathlib

/-!
# Crypto tracker: signal normalization & scoring engine — verification

Shallow embedding of the core of `src/crypto_api.py`:
* the record normalizer (`parse_single_crypto_data`, `parse_crypto_data`),
* the scoring engine (`enhanced_investment_analysis`),
* the opportunity ranker (`analyze_portfolio_opportunities`),
* the history-point parse loop inside `get_historical_prices`.

Python floats are modelled by `ℚ` (all constants appearing in the code are
exactly representable); Python ints by `ℤ`; a Python value that may be a
missing dictionary key is modelled by `Option`.  JSON payloads are modelled
by dedicated raw-record types in which every relevant field is either
absent, `null`, or a value of the shape the code expects; inputs outside
that space make the Python code raise `AttributeError`, which none of the
relevant `except` clauses catch, so they abort the whole call rather than
influence any per-record behaviour.
-/

/-- A raw numeric JSON field: absent key, JSON `null`, or a number. -/
inductive RawNum where
  | absent : RawNum
  | null : RawNum
  | val (x : ℚ) : RawNum
deriving DecidableEq

/-- Models `d.get(key, 0) or 0` on a raw numeric field: an absent key takes the
default `0`, a `null` value is falsy so `or 0` turns it into `0`, and the
number `0` itself is also falsy but `or 0` again yields `0`. -/
def RawNum.toVal : RawNum → ℚ
  | .absent => 0
  | .null => 0
  | .val x => x

/-- A raw string JSON field: absent key, JSON `null`, or a string. -/
inductive RawStr where
  | absent : RawStr
  | null : RawStr
  | val (s : String) : RawStr
deriving DecidableEq

/-- Models `item.get(key, "Unknown")`: an absent key takes the default, a
`null` value is returned as Python `None` (modelled `none`), a string is
returned unchanged. -/
def RawStr.toName : RawStr → Option String
  | .absent => some "Unknown"
  | .null => none
  | .val s => some s

/-- The `quote.USD` sub-dictionary of a raw asset record. -/
structure RawUSDQuote where
  price : RawNum
  market_cap : RawNum
  volume_24h : RawNum
  percent_change_1h : RawNum
  percent_change_24h : RawNum
  percent_change_7d : RawNum
deriving DecidableEq

/-- One raw asset record, as both normalizer branches read it.
`quote_usd = none` models a `quote` key that is absent/`null`/falsy or a
`USD` key that is absent/`null`/falsy: the code collapses each of those to
`{}` via `(item.get("quote") or {}).get("USD") or {}`. -/
structure RawItem where
  name : RawStr
  symbol : RawStr
  quote_usd : Option RawUSDQuote
  circulating_supply : RawNum
  max_supply : RawNum
deriving DecidableEq

/-- The `{}` every missing layer collapses to. -/
def emptyUSDQuote : RawUSDQuote :=
  ⟨.absent, .absent, .absent, .absent, .absent, .absent⟩

/-- A raw item whose every field is absent (an empty JSON object). -/
def emptyRawItem : RawItem :=
  ⟨.absent, .absent, none, .absent, .absent⟩

/-- `(item.get("quote") or {}).get("USD") or {}`. -/
def RawItem.usd (item : RawItem) : RawUSDQuote :=
  item.quote_usd.getD emptyUSDQuote

/-- A produced `crypto_info` dictionary.  A numeric field is `none` when the
producing code did not put the key into the dictionary at all; it is
`some q` when the key is present with numeric value `q`.  `name`/`symbol`
are always present; their value is `none` exactly when the Python value is
`None` (a `null` upstream name). -/
structure CryptoInfo where
  name : Option String
  symbol : Option String
  price : Option ℚ
  market_cap : Option ℚ
  volume_24h : Option ℚ
  percent_change_1h : Option ℚ
  percent_change_24h : Option ℚ
  percent_change_7d : Option ℚ
  circulating_supply : Option ℚ
  max_supply : Option ℚ
deriving DecidableEq

/-- The record built by `parse_single_crypto_data` (crypto_api.py 252-263)
from one raw item: all eight numeric fields are written. -/
def singleInfoOf (item : RawItem) : CryptoInfo where
  name := item.name.toName
  symbol := item.symbol.toName
  price := some item.usd.price.toVal
  market_cap := some item.usd.market_cap.toVal
  volume_24h := some item.usd.volume_24h.toVal
  percent_change_1h := some item.usd.percent_change_1h.toVal
  percent_change_24h := some item.usd.percent_change_24h.toVal
  percent_change_7d := some item.usd.percent_change_7d.toVal
  circulating_supply := some item.circulating_supply.toVal
  max_supply := some item.max_supply.toVal

/-- The record built by the loop body of `parse_crypto_data`
(crypto_api.py 288-296) from one raw item: only five numeric keys are
written; `percent_change_1h`, `circulating_supply` and `max_supply` are
not part of the dictionary literal there. -/
def listInfoOf (item : RawItem) : CryptoInfo where
  name := item.name.toName
  symbol := item.symbol.toName
  price := some item.usd.price.toVal
  market_cap := some item.usd.market_cap.toVal
  volume_24h := some item.usd.volume_24h.toVal
  percent_change_1h := none
  percent_change_24h := some item.usd.percent_change_24h.toVal
  percent_change_7d := some item.usd.percent_change_7d.toVal
  circulating_supply := none
  max_supply := none

/-- `parse_single_crypto_data` (crypto_api.py 233-267).  Input: `none` when
the payload is falsy or has no `"data"` key; otherwise the `"data"`
mapping as an association list in dictionary iteration order, each value
being `none` when it is `null`/falsy (the code replaces it by `{}` via
`or {}`).  The code takes `keys[0]` and parses only that entry; an empty
mapping yields `None`. -/
def parse_single_crypto_data (data : Option (List (String × Option RawItem))) :
    Option CryptoInfo :=
  match data with
  | none => none
  | some entries =>
    match entries with
    | [] => none
    | (_, item) :: _ => some (singleInfoOf (item.getD emptyRawItem))

/-- `parse_crypto_data` (crypto_api.py 269-302).  Input: `none` when the
payload is falsy, has no `"data"` key, or `data["data"]` is not a list;
otherwise the list of raw items.  On the modelled input space the
per-item `except (KeyError, TypeError)` never fires (field access on the
modelled shapes raises neither), so every item is normalized. -/
def parse_crypto_data (data : Option (List RawItem)) :
    Option (List CryptoInfo) :=
  match data with
  | none => none
  | some items => some (items.map listInfoOf)

/-! ## Scoring engine (`enhanced_investment_analysis`, crypto_api.py 305-510) -/

/-- `max(lo, min(hi, v))` (crypto_api.py 488-489). -/
def clamp (v lo hi : ℚ) : ℚ := max lo (min hi v)

/-- Step 1 trend score (crypto_api.py 346-360), in the source's branch
order: strong rise `5`, stable rise `3`, strong fall `-5`, mild fall `-3`,
ranging `0`. -/
def trend_score (change_24h change_7d : ℚ) : ℤ :=
  if change_24h > 5 ∧ change_7d > 10 then 5
  else if change_24h > 2 ∧ change_7d > 5 then 3
  else if change_24h < -5 ∧ change_7d < -10 then -5
  else if change_24h < -2 ∧ change_7d < -5 then -3
  else 0

/-- The technical-signal string appended by the step 1 branch that fires. -/
def trend_signal (change_24h change_7d : ℚ) : String :=
  if change_24h > 5 ∧ change_7d > 10 then "买入信号: 强势上涨"
  else if change_24h > 2 ∧ change_7d > 5 then "持有信号: 稳定上涨"
  else if change_24h < -5 ∧ change_7d < -10 then "卖出信号: 强烈下跌"
  else if change_24h < -2 ∧ change_7d < -5 then "观望信号: 温和下跌"
  else "持有信号: 震荡行情"

/-- `volume_24h / market_cap` guarded by `market_cap > 0` (crypto_api.py 363). -/
def volume_ratio (volume_24h market_cap : ℚ) : ℚ :=
  if market_cap > 0 then volume_24h / market_cap else 0

/-- Risk string from volatility (crypto_api.py 368-377). -/
def risk_level_of (volatility : ℚ) : String :=
  if volatility > 25 then "高风险"
  else if volatility > 15 then "中等风险"
  else "低风险"

/-- Volatility factor string (crypto_api.py 368-377). -/
def volatility_factor (volatility : ℚ) : String :=
  if volatility > 25 then "高波动性"
  else if volatility > 15 then "中等波动性"
  else "低波动性"

/-- Market-cap tier score (crypto_api.py 380-388). -/
def mc_score (market_cap : ℚ) : ℤ :=
  if market_cap > 50000000000 then 3
  else if market_cap > 10000000000 then 1
  else -2

/-- Market-cap tier factor string (crypto_api.py 380-388). -/
def mc_factor (market_cap : ℚ) : String :=
  if market_cap > 50000000000 then "大盘，相对稳定"
  else if market_cap > 10000000000 then "中盘，稳定性适中"
  else "小盘，高风险高收益"

/-- 24h-change term of the composite score (crypto_api.py 394-405). -/
def change24h_score (c : ℚ) : ℤ :=
  if c > 10 then 5
  else if c > 5 then 3
  else if c > 0 then 1
  else if c < -10 then -5
  else if c < -5 then -3
  else if c < 0 then -1
  else 0

/-- 7d-change term of the composite score (crypto_api.py 408-419). -/
def change7d_score (c : ℚ) : ℤ :=
  if c > 15 then 5
  else if c > 10 then 3
  else if c > 0 then 1
  else if c < -15 then -5
  else if c < -10 then -3
  else if c < 0 then -1
  else 0

/-- Volume-ratio term of the composite score (crypto_api.py 423-426). -/
def volume_score (ratio : ℚ) : ℤ :=
  if ratio > 0.1 then 2
  else if ratio > 0.05 then 1
  else 0

/-- The composite score (crypto_api.py 391-429): 24h term, 7d term,
market-cap term, volume term, then `score += trend_score`. -/
def composite_score (change_24h change_7d market_cap volume_24h : ℚ) : ℤ :=
  change24h_score change_24h + change7d_score change_7d
    + mc_score market_cap + volume_score (volume_ratio volume_24h market_cap)
    + trend_score change_24h change_7d

/-- `max(0, min(100, int(abs(score) * 10)))` (crypto_api.py 431); `score` is
a Python `int`, so `int(...)` is the identity. -/
def confidence_of (score : ℤ) : ℤ := max 0 (min 100 (|score| * 10))

/-- Action from the score thresholds (crypto_api.py 434-448). -/
def action_of (score : ℤ) : String :=
  if score ≥ 8 then "BUY"
  else if score ≥ 4 then "BUY"
  else if score ≥ -3 then "HOLD"
  else if score ≥ -7 then "SELL"
  else "SELL"

/-- Timeframe from the score thresholds (crypto_api.py 434-448). -/
def timeframe_of (score : ℤ) : String :=
  if score ≥ 8 then "短期"
  else if score ≥ 4 then "中期"
  else if score ≥ -3 then "短期"
  else if score ≥ -7 then "短期"
  else "立即"

/-- `{"low": 0.5, "medium": 1.0, "high": 1.5}.get(user_risk_level, 1.0)`
(crypto_api.py 456-457). -/
def risk_multiplier (user_risk_level : String) : ℚ :=
  if user_risk_level = "low" then 0.5
  else if user_risk_level = "medium" then 1.0
  else if user_risk_level = "high" then 1.5
  else 1.0

/-- An `investment_range` dictionary. -/
structure InvestmentRange where
  min : ℚ
  max : ℚ
  recommended : ℚ
deriving DecidableEq

/-- A `target_prices` dictionary. -/
structure TargetPrices where
  take_profit : ℚ
  stop_loss : ℚ
deriving DecidableEq

/-- Position sizing (crypto_api.py 459-485), keyed on the already-decided
action string and the score. -/
def investment_range_of (action : String) (score : ℤ) (base_investment : ℚ) :
    InvestmentRange :=
  if action = "BUY" then
    if score ≥ 8 then
      ⟨base_investment * 0.3, base_investment * 0.7, base_investment * 0.5⟩
    else if score ≥ 4 then
      ⟨base_investment * 0.2, base_investment * 0.5, base_investment * 0.3⟩
    else
      ⟨0, base_investment * 0.2, base_investment * 0.1⟩
  else if action = "SELL" then ⟨0, 0, 0⟩
  else ⟨0, base_investment * 0.3, base_investment * 0.1⟩

/-- Target prices (crypto_api.py 491-501). -/
def target_prices_of (action : String) (score : ℤ) (price : ℚ) : TargetPrices :=
  if action = "BUY" then
    ⟨price * (1 + clamp ((score : ℚ) * 0.03) 0 0.2),
     price * (1 - clamp ((|score| : ℤ) * 0.02) 0 0.1)⟩
  else if action = "SELL" then
    ⟨price * (1 - clamp ((|score| : ℤ) * 0.02) 0 0.1),
     price * (1 + clamp ((|score| : ℤ) * 0.01) 0 0.05)⟩
  else ⟨price * 1.10, price * 0.90⟩

/-- The analysis report built by `enhanced_investment_analysis`
(omitting only the constant disclaimer string, attached verbatim at
crypto_api.py 504). -/
structure Analysis where
  name : Option String
  symbol : Option String
  current_price : ℚ
  action : String
  confidence : ℤ
  investment_range : InvestmentRange
  target_prices : TargetPrices
  timeframe : String
  risk_level : String
  factors : List String
  technical_signals : List String
deriving DecidableEq

/-- The body of `enhanced_investment_analysis` on a truthy `crypto_data`
dictionary (crypto_api.py 320-506): field extraction with
`float(d.get(k, 0) or 0)`, the five scoring steps, sizing and targets. -/
def analysisOf (d : CryptoInfo) (user_risk_level : String)
    (investment_budget : ℚ) : Analysis :=
  let price := d.price.getD 0
  let change_24h := d.percent_change_24h.getD 0
  let change_7d := d.percent_change_7d.getD 0
  let market_cap := d.market_cap.getD 0
  let volume_24h := d.volume_24h.getD 0
  let ratio := volume_ratio volume_24h market_cap
  let volatility := |change_24h| + |change_7d|
  let score := composite_score change_24h change_7d market_cap volume_24h
  let action := action_of score
  let base_investment := max 0 investment_budget * risk_multiplier user_risk_level
  { name := d.name
    symbol := d.symbol
    current_price := price
    action := action
    confidence := confidence_of score
    investment_range := investment_range_of action score base_investment
    target_prices := target_prices_of action score price
    timeframe := timeframe_of score
    risk_level := risk_level_of volatility
    factors := [volatility_factor volatility, mc_factor market_cap]
    technical_signals :=
      trend_signal change_24h change_7d ::
        (if ratio > 0.1 then ["确认信号: 高成交量确认趋势"] else []) }

/-- `enhanced_investment_analysis` (crypto_api.py 305-510): a falsy
`crypto_data` yields `None`; on the modelled input space the numeric
coercions cannot fail, so the `except` at 508 is unreachable. -/
def enhanced_investment_analysis (crypto_data : Option CryptoInfo)
    (user_risk_level : String) (investment_budget : ℚ) : Option Analysis :=
  match crypto_data with
  | none => none
  | some d => some (analysisOf d user_risk_level investment_budget)

/-! ## Opportunity ranker (`analyze_portfolio_opportunities`, crypto_api.py 512-537)

The upstream fetch `get_top_cryptocurrencies(20)` is an external
collaborator; the ranker is modelled over the already-normalized universe
it returns. -/

/-- The comparison `list.sort(key=lambda x: x["investment_range"]["recommended"],
reverse=True)` performs: descending by `recommended`.  Python's sort is
stable also with `reverse=True` (ties keep the original order), which
`List.mergeSort` matches. -/
def rankLE (a b : Analysis) : Bool :=
  decide (b.investment_range.recommended ≤ a.investment_range.recommended)

/-- The `opportunities` list before sorting (crypto_api.py 524-528): each
asset is scored; a `None` analysis or one with
`(analysis.get("investment_range", {}).get("recommended", 0) or 0) > 0`
failing is not appended. -/
def rankPool (univ : List CryptoInfo) (risk_level : String)
    (investment_budget : ℚ) : List Analysis :=
  univ.filterMap fun crypto =>
    match enhanced_investment_analysis (some crypto) risk_level investment_budget with
    | none => none
    | some analysis =>
      if 0 < analysis.investment_range.recommended then some analysis else none

/-- `analyze_portfolio_opportunities` (crypto_api.py 512-537): score the
universe, filter to positive recommendations, stable-sort descending by
`recommended`, return the first 10. -/
def analyze_portfolio_opportunities (univ : List CryptoInfo)
    (investment_budget : ℚ) (risk_level : String) : List Analysis :=
  ((rankPool univ risk_level investment_budget).mergeSort rankLE).take 10

/-! ## History-point parse loop (`get_historical_prices`, crypto_api.py 206-227)

The HTTP fetch and its failure fallback (return `[]`) are outside the
modelled core; the loop that turns `data["data"]["quotes"]` into
`{"timestamp": ..., "price": ...}` points is modelled here.  Instants are
modelled as rational seconds since the Unix epoch (UTC). -/

/-- A raw timestamp value: a numeric instant (Python int/float) or a string. -/
inductive TimeVal where
  | num (x : ℚ) : TimeVal
  | str (s : String) : TimeVal
deriving DecidableEq

/-- Python truthiness of a timestamp value: `0` and `""` are falsy. -/
def TimeVal.truthy : TimeVal → Bool
  | .num x => decide (x ≠ 0)
  | .str s => decide (s ≠ "")

/-- Python `a or b` on optional timestamp values: `None` and falsy values
fall through to `b`; `b` is returned as-is. -/
def pyOr (a b : Option TimeVal) : Option TimeVal :=
  match a with
  | some v => if v.truthy then some v else b
  | none => b

/-- A raw price value: a number or a string. -/
inductive PriceVal where
  | num (x : ℚ) : PriceVal
  | str (s : String) : PriceVal
deriving DecidableEq

/-- One element of `data["data"]["quotes"]`.  A `none` field models an
absent key or a JSON `null`; `close = none` also covers an absent
`quote`/`USD` layer, which the code collapses with
`((q.get("quote") or {}).get("USD") or {}).get("close")`. -/
structure RawOHLCV where
  time_open : Option TimeVal
  time_close : Option TimeVal
  timestamp : Option TimeVal
  close : Option PriceVal
deriving DecidableEq

/-- Digit run to a natural number. -/
def digitsVal (cs : List Char) : ℕ :=
  cs.foldl (fun n c => n * 10 + (c.toNat - 48)) 0

/-- Nonempty and all decimal digits. -/
def isDigits (cs : List Char) : Bool :=
  !cs.isEmpty && cs.all (·.isDigit)

/-- Split a character list at every `'.'`. -/
def splitOnDot : List Char → List (List Char)
  | [] => [[]]
  | '.' :: rest => [] :: splitOnDot rest
  | c :: rest =>
    match splitOnDot rest with
    | [] => [[c]]
    | h :: t => (c :: h) :: t

/-- Modelled from the spec: Python's builtin `float(str)` on plain decimal
literals — optional sign, then digits with at most one decimal point and
at least one digit; anything else (including exponents and the non-finite
spellings, which cannot denote a value of this model's number type) is a
coercion failure. -/
def pyFloatOfString (s : String) : Option ℚ :=
  let cs := s.toList
  let signed : ℚ × List Char :=
    match cs with
    | '-' :: rest => (-1, rest)
    | '+' :: rest => (1, rest)
    | _ => (1, cs)
  match splitOnDot signed.2 with
  | [ip] => if isDigits ip then some (signed.1 * digitsVal ip) else none
  | [ip, fp] =>
    if (isDigits ip || ip.isEmpty) && (isDigits fp || fp.isEmpty)
        && !(ip.isEmpty && fp.isEmpty) then
      some (signed.1 * ((digitsVal ip : ℚ) + (digitsVal fp : ℚ) / 10 ^ fp.length))
    else none
  | _ => none

/-- `float(price)` (crypto_api.py 222-225): numbers pass through, strings
go through the decimal parse. -/
def pyFloat : PriceVal → Option ℚ
  | .num x => some x
  | .str s => pyFloatOfString s

/-- `str.replace("Z", "+00:00")` specialised to the single-character
pattern `"Z"`: every occurrence is replaced. -/
def replaceZ : List Char → List Char
  | [] => []
  | 'Z' :: rest => '+' :: '0' :: '0' :: ':' :: '0' :: '0' :: replaceZ rest
  | c :: rest => c :: replaceZ rest

/-- Two decimal digits to a number, failing on non-digits. -/
def parse2 (a b : Char) : Option ℕ :=
  if a.isDigit && b.isDigit then some ((a.toNat - 48) * 10 + (b.toNat - 48))
  else none

/-- A parsed (possibly offset-aware) date-time, as `datetime.fromisoformat`
produces: `offsetMinutes = none` is a naive result, `some m` carries a
fixed UTC offset of `m` minutes. -/
structure PyDateTime where
  year : ℕ
  month : ℕ
  day : ℕ
  hour : ℕ
  minute : ℕ
  second : ℕ
  offsetMinutes : Option ℤ
deriving DecidableEq

/-- Trailing `±HH:MM` UTC offset, or nothing. -/
def parseOffset : List Char → Option (Option ℤ)
  | [] => some none
  | [sg, h1, h2, ':', m1, m2] =>
    match parse2 h1 h2, parse2 m1 m2 with
    | some hh, some mm =>
      if hh < 24 && mm < 60 then
        if sg = '+' then some (some ((hh : ℤ) * 60 + mm))
        else if sg = '-' then some (some (-((hh : ℤ) * 60 + mm)))
        else none
      else none
    | _, _ => none
  | _ => none

/-- `HH[:MM[:SS]]` followed by an optional offset. -/
def parseTimePart : List Char → Option (ℕ × ℕ × ℕ × Option ℤ)
  | h1 :: h2 :: rest =>
    match parse2 h1 h2 with
    | none => none
    | some hh =>
      if hh ≥ 24 then none
      else
        match rest with
        | ':' :: m1 :: m2 :: rest2 =>
          match parse2 m1 m2 with
          | none => none
          | some mm =>
            if mm ≥ 60 then none
            else
              match rest2 with
              | ':' :: s1 :: s2 :: rest3 =>
                match parse2 s1 s2 with
                | none => none
                | some ss =>
                  if ss ≥ 60 then none
                  else (parseOffset rest3).map fun o => (hh, mm, ss, o)
              | other => (parseOffset other).map fun o => (hh, mm, 0, o)
        | other => (parseOffset other).map fun o => (hh, 0, 0, o)
  | _ => none

/-- Modelled from the spec: Python's `datetime.fromisoformat` on the
`isoformat()` grammar `YYYY-MM-DD[*HH[:MM[:SS]][±HH:MM]]` (any single
separator character, fractional seconds omitted from the model); out-of-range
components fail as in Python. -/
def fromisoformat (cs : List Char) : Option PyDateTime :=
  match cs with
  | y1 :: y2 :: y3 :: y4 :: '-' :: m1 :: m2 :: '-' :: d1 :: d2 :: rest =>
    if [y1, y2, y3, y4].all (·.isDigit) then
      match parse2 m1 m2, parse2 d1 d2 with
      | some mo, some dy =>
        if 1 ≤ mo && mo ≤ 12 && 1 ≤ dy && dy ≤ 31 then
          let yr := digitsVal [y1, y2, y3, y4]
          match rest with
          | [] => some ⟨yr, mo, dy, 0, 0, 0, none⟩
          | _ :: timeChars =>
            (parseTimePart timeChars).map fun t =>
              ⟨yr, mo, dy, t.1, t.2.1, t.2.2.1, t.2.2.2⟩
        else none
      | _, _ => none
    else none
  | _ => none

/-- Days from 1970-01-01 to the given proleptic-Gregorian civil date
(Howard Hinnant's `days_from_civil`). -/
def daysFromCivil (y : ℤ) (m d : ℤ) : ℤ :=
  let y := if m ≤ 2 then y - 1 else y
  let era := (if 0 ≤ y then y else y - 399) / 400
  let yoe := y - era * 400
  let mp := (m + 9) % 12
  let doy := (153 * mp + 2) / 5 + d - 1
  let doe := yoe * 365 + yoe / 4 - yoe / 100 + doy
  era * 146097 + doe - 719468

/-- Seconds since the Unix epoch of a parsed date-time; a naive result is
taken at face value (offset 0), an aware one has its offset subtracted. -/
def PyDateTime.toEpoch (dt : PyDateTime) : ℤ :=
  daysFromCivil dt.year dt.month dt.day * 86400
    + dt.hour * 3600 + dt.minute * 60 + dt.second
    - (dt.offsetMinutes.getD 0) * 60

/-- Timestamp conversion (crypto_api.py 215-221): numeric values go through
`datetime.fromtimestamp(t, tz=utc)` (the instant is the number itself),
strings through `datetime.fromisoformat(str(t).replace("Z", "+00:00"))`;
any parse failure drops the record. -/
def instantOf : TimeVal → Option ℚ
  | .num x => some x
  | .str s => (fromisoformat (replaceZ s.toList)).map fun dt => (dt.toEpoch : ℚ)

/-- One canonical history point: `{"timestamp": instant, "price": float}`. -/
structure HistoryPoint where
  timestamp : ℚ
  price : ℚ
deriving DecidableEq

/-- One iteration of the parse loop (crypto_api.py 209-226): choose
`t = q.get("time_open") or q.get("time_close") or q.get("timestamp")`,
require `t` truthy and `price` non-`None`, then convert both, dropping
the record (`continue`) on any failure. -/
def parsePoint (q : RawOHLCV) : Option HistoryPoint :=
  let t := pyOr (pyOr q.time_open q.time_close) q.timestamp
  match t, q.close with
  | some v, some p =>
    if v.truthy then
      match instantOf v with
      | none => none
      | some ts =>
        match pyFloat p with
        | none => none
        | some pf => some ⟨ts, pf⟩
    else none
  | _, _ => none

/-- The whole parse loop: per-record failures are dropped, the rest are
appended in order. -/
def parse_history (quotes : List RawOHLCV) : List HistoryPoint :=
  quotes.filterMap parsePoint

/-! ## Claim theorems -/

/-- The C1 scenario asset: `{price: 100, percent_change_24h: 12,
percent_change_7d: 18, market_cap: 60e9, volume_24h: 8e9}`. -/
def c1_asset : CryptoInfo :=
  { name := some "X", symbol := some "X", price := some 100,
    market_cap := some 60000000000, volume_24h := some 8000000000,
    percent_change_1h := none, percent_change_24h := some 12,
    percent_change_7d := some 18, circulating_supply := none, max_supply := none }

/-- C1: for the quote `{price: 100, percent_change_24h: 12,
percent_change_7d: 18, market_cap: 60e9, volume_24h: 8e9}` scored with risk
level `"medium"` and budget `1000`, the engine's composite score is ≥ 8 and
the returned signal has `action = "BUY"`, `timeframe = 短期` (short-term),
`confidence = 100` (clamped), `investment_range.recommended = 500`,
`take_profit = 120` (clamped at +20%) and `stop_loss = 90` (clamped at
−10%). -/
theorem c1_scenario_buy_short_term :
    (enhanced_investment_analysis (some c1_asset) "medium" 1000).map
        Analysis.action = some "BUY"
    ∧ (enhanced_investment_analysis (some c1_asset) "medium" 1000).map
        Analysis.timeframe = some "短期"
    ∧ (enhanced_investment_analysis (some c1_asset) "medium" 1000).map
        Analysis.confidence = some 100
    ∧ (enhanced_investment_analysis (some c1_asset) "medium" 1000).map
        (fun a => a.investment_range.recommended) = some 500
    ∧ (enhanced_investment_analysis (some c1_asset) "medium" 1000).map
        (fun a => a.target_prices.take_profit) = some 120
    ∧ (enhanced_investment_analysis (some c1_asset) "medium" 1000).map
        (fun a => a.target_prices.stop_loss) = some 90
    ∧ 8 ≤ composite_score 12 18 60000000000 8000000000 := by
  norm_num [enhanced_investment_analysis, analysisOf, c1_asset,
    composite_score, change24h_score, change7d_score, mc_score, volume_ratio,
    volume_score, trend_score, action_of, timeframe_of, confidence_of,
    investment_range_of, target_prices_of, risk_multiplier, clamp]
  decide

/-- C4: the trend term of the composite score takes exactly the values
`{+5, +3, 0, -3, -5}`: `+5` on a strong uptrend (`24h > 5` and `7d > 10`),
`+3` on a mild/stable uptrend, `-5` on a strong downtrend, `-3` on a mild
downtrend, and `0` for ranging, following the branch priority of the
thresholds on `(percent_change_24h, percent_change_7d)`; it is added once
to the composite score. -/
theorem c4_trend_term (c24 c7 : ℚ) :
    trend_score c24 c7 ∈ ([5, 3, 0, -3, -5] : List ℤ)
    ∧ (c24 > 5 ∧ c7 > 10 → trend_score c24 c7 = 5)
    ∧ (¬(c24 > 5 ∧ c7 > 10) → c24 > 2 ∧ c7 > 5 → trend_score c24 c7 = 3)
    ∧ (¬(c24 > 5 ∧ c7 > 10) → ¬(c24 > 2 ∧ c7 > 5) →
        c24 < -5 ∧ c7 < -10 → trend_score c24 c7 = -5)
    ∧ (¬(c24 > 5 ∧ c7 > 10) → ¬(c24 > 2 ∧ c7 > 5) →
        ¬(c24 < -5 ∧ c7 < -10) → c24 < -2 ∧ c7 < -5 → trend_score c24 c7 = -3)
    ∧ (¬(c24 > 5 ∧ c7 > 10) → ¬(c24 > 2 ∧ c7 > 5) →
        ¬(c24 < -5 ∧ c7 < -10) → ¬(c24 < -2 ∧ c7 < -5) →
        trend_score c24 c7 = 0)
    ∧ (∀ market_cap volume_24h : ℚ,
        composite_score c24 c7 market_cap volume_24h
          = change24h_score c24 + change7d_score c7 + mc_score market_cap
            + volume_score (volume_ratio volume_24h market_cap)
            + trend_score c24 c7) := by
  refine ⟨?_, ?_, ?_, ?_, ?_, ?_, fun market_cap volume_24h => rfl⟩
  · unfold trend_score; split_ifs <;> simp
  all_goals (intros; unfold trend_score; split_ifs <;> first | rfl | tauto)

/-- Concrete instantiation of `c4_trend_term`: the strong-uptrend branch at
`(12, 18)` contributes `+5`. -/
theorem c4_trend_term_witness : trend_score 12 18 = 5 :=
  (c4_trend_term 12 18).2.1 (by norm_num)

/-- The risk multiplier is one of `0.5`, `1.0`, `1.5`, hence nonnegative. -/
theorem risk_multiplier_nonneg (lvl : String) : 0 ≤ risk_multiplier lvl := by
  unfold risk_multiplier
  split_ifs <;> norm_num

/-- `base_investment = max(0.0, budget) * risk_multiplier[...]` is
nonnegative. -/
theorem base_investment_nonneg (budget : ℚ) (lvl : String) :
    0 ≤ max 0 budget * risk_multiplier lvl :=
  mul_nonneg (le_max_left 0 budget) (risk_multiplier_nonneg lvl)

/-- The sizing step keeps `0 ≤ min ≤ recommended ≤ max` and zeroes the
range on `"SELL"`, for any nonnegative base investment. -/
theorem investment_range_of_props (action : String) (score : ℤ)
    (base : ℚ) (hbase : 0 ≤ base) :
    0 ≤ (investment_range_of action score base).min
    ∧ (investment_range_of action score base).min
        ≤ (investment_range_of action score base).recommended
    ∧ (investment_range_of action score base).recommended
        ≤ (investment_range_of action score base).max
    ∧ (action = "SELL" →
        (investment_range_of action score base).min = 0
        ∧ (investment_range_of action score base).max = 0
        ∧ (investment_range_of action score base).recommended = 0) := by
  unfold investment_range_of
  split_ifs with h1 h2 h3 h4 <;>
    refine ⟨by dsimp only; nlinarith, by dsimp only; nlinarith,
      by dsimp only; nlinarith, fun hsell => ?_⟩
  · exact absurd (hsell.symm.trans h1) (by decide)
  · exact absurd (hsell.symm.trans h1) (by decide)
  · exact absurd (hsell.symm.trans h1) (by decide)
  · exact ⟨rfl, rfl, rfl⟩
  · exact absurd hsell h4

/-- C6: for every asset quote, risk-level string and budget, the returned
signal's `investment_range` satisfies `0 ≤ min ≤ recommended ≤ max`, and
whenever `action = "SELL"` all three of `min`, `max`, `recommended` are
exactly `0`. -/
theorem c6_investment_range_ordered (d : CryptoInfo) (risk : String)
    (budget : ℚ) (a : Analysis)
    (h : enhanced_investment_analysis (some d) risk budget = some a) :
    0 ≤ a.investment_range.min
    ∧ a.investment_range.min ≤ a.investment_range.recommended
    ∧ a.investment_range.recommended ≤ a.investment_range.max
    ∧ (a.action = "SELL" →
        a.investment_range.min = 0
        ∧ a.investment_range.max = 0
        ∧ a.investment_range.recommended = 0) := by
  have ha : a = analysisOf d risk budget := by
    simpa [enhanced_investment_analysis] using h.symm
  subst ha
  exact investment_range_of_props _ _ _ (base_investment_nonneg budget risk)

/-- The spec's SELL scenario asset: `percent_change_24h = -12`,
`percent_change_7d = -18`, `market_cap = 1e9`, `volume_24h = 1e7`. -/
def sell_asset : CryptoInfo :=
  { name := some "Y", symbol := some "Y", price := some 10,
    market_cap := some 1000000000, volume_24h := some 10000000,
    percent_change_1h := none, percent_change_24h := some (-12),
    percent_change_7d := some (-18), circulating_supply := none,
    max_supply := none }

/-- Concrete instantiation of `c6_investment_range_ordered` on the SELL
scenario asset. -/
theorem c6_investment_range_ordered_witness :
    0 ≤ (analysisOf sell_asset "low" 1000).investment_range.min
    ∧ (analysisOf sell_asset "low" 1000).investment_range.min
        ≤ (analysisOf sell_asset "low" 1000).investment_range.recommended
    ∧ (analysisOf sell_asset "low" 1000).investment_range.recommended
        ≤ (analysisOf sell_asset "low" 1000).investment_range.max
    ∧ ((analysisOf sell_asset "low" 1000).action = "SELL" →
        (analysisOf sell_asset "low" 1000).investment_range.min = 0
        ∧ (analysisOf sell_asset "low" 1000).investment_range.max = 0
        ∧ (analysisOf sell_asset "low" 1000).investment_range.recommended = 0) :=
  c6_investment_range_ordered sell_asset "low" 1000
    (analysisOf sell_asset "low" 1000) rfl

/-- C8: for every asset quote, risk level and budget, the confidence of the
returned signal is an integer (modelled by its type `ℤ`, Python's
`int(...)`) with `0 ≤ confidence ≤ 100`. -/
theorem c8_confidence_bounds (d : CryptoInfo) (risk : String) (budget : ℚ)
    (a : Analysis)
    (h : enhanced_investment_analysis (some d) risk budget = some a) :
    0 ≤ a.confidence ∧ a.confidence ≤ 100 := by
  have ha : a = analysisOf d risk budget := by
    simpa [enhanced_investment_analysis] using h.symm
  subst ha
  show 0 ≤ confidence_of _ ∧ confidence_of _ ≤ 100
  unfold confidence_of
  omega

/-- Concrete instantiation of `c8_confidence_bounds`. -/
theorem c8_confidence_bounds_witness :
    0 ≤ (analysisOf c1_asset "medium" 1000).confidence
    ∧ (analysisOf c1_asset "medium" 1000).confidence ≤ 100 :=
  c8_confidence_bounds c1_asset "medium" 1000
    (analysisOf c1_asset "medium" 1000) rfl

/-- `clamp` with lower bound `0` is nonnegative. -/
theorem clamp_nonneg (v hi : ℚ) : 0 ≤ clamp v 0 hi := le_max_left 0 _

/-- `clamp v lo hi ≤ hi` whenever `lo ≤ hi`. -/
theorem clamp_le_hi (v lo hi : ℚ) (h : lo ≤ hi) : clamp v lo hi ≤ hi :=
  max_le h (min_le_left hi v)

/-- The target-price step brackets the current price: for a positive price,
`"BUY"` and hold-style actions keep `stop_loss ≤ price ≤ take_profit`,
while `"SELL"` reverses the bracket. -/
theorem target_prices_of_bracket (action : String) (score : ℤ) (price : ℚ)
    (hp : 0 < price) :
    ((action = "BUY" ∨ action = "HOLD") →
      (target_prices_of action score price).stop_loss ≤ price
      ∧ price ≤ (target_prices_of action score price).take_profit)
    ∧ (action = "SELL" →
      (target_prices_of action score price).take_profit ≤ price
      ∧ price ≤ (target_prices_of action score price).stop_loss) := by
  unfold target_prices_of
  split_ifs with h1 h2
  · refine ⟨fun _ => ⟨?_, ?_⟩, fun hsell => absurd (hsell.symm.trans h1) (by decide)⟩
    · dsimp only
      have hc0 : 0 ≤ clamp ((|score| : ℤ) * 0.02) 0 0.1 := clamp_nonneg _ _
      nlinarith [mul_nonneg hp.le hc0]
    · dsimp only
      have hc0 : 0 ≤ clamp ((score : ℚ) * 0.03) 0 0.2 := clamp_nonneg _ _
      nlinarith [mul_nonneg hp.le hc0]
  · refine ⟨fun hb => ?_, fun _ => ⟨?_, ?_⟩⟩
    · rcases hb with hb | hb
      · exact absurd hb h1
      · exact absurd (hb.symm.trans h2) (by decide)
    · dsimp only
      have hc0 : 0 ≤ clamp ((|score| : ℤ) * 0.02) 0 0.1 := clamp_nonneg _ _
      nlinarith [mul_nonneg hp.le hc0]
    · dsimp only
      have hc0 : 0 ≤ clamp ((|score| : ℤ) * 0.01) 0 0.05 := clamp_nonneg _ _
      nlinarith [mul_nonneg hp.le hc0]
  · refine ⟨fun _ => ⟨?_, ?_⟩, fun hsell => absurd hsell h2⟩ <;>
      (dsimp only; nlinarith)

/-- C10: for every signal produced from an asset quote, risk level and
budget, if the current price is positive then `"BUY"`/`"HOLD"` signals
satisfy `stop_loss ≤ current_price ≤ take_profit` and `"SELL"` signals the
reverse, `take_profit ≤ current_price ≤ stop_loss`. -/
theorem c10_target_price_bracket (d : CryptoInfo) (risk : String)
    (budget : ℚ) (a : Analysis)
    (h : enhanced_investment_analysis (some d) risk budget = some a)
    (hp : 0 < a.current_price) :
    ((a.action = "BUY" ∨ a.action = "HOLD") →
      a.target_prices.stop_loss ≤ a.current_price
      ∧ a.current_price ≤ a.target_prices.take_profit)
    ∧ (a.action = "SELL" →
      a.target_prices.take_profit ≤ a.current_price
      ∧ a.current_price ≤ a.target_prices.stop_loss) := by
  have ha : a = analysisOf d risk budget := by
    simpa [enhanced_investment_analysis] using h.symm
  subst ha
  exact target_prices_of_bracket _ _ _ hp

/-- Concrete instantiation of `c10_target_price_bracket` at the C1 asset
(price `100`, a `"BUY"` signal). -/
theorem c10_target_price_bracket_witness :
    (((analysisOf c1_asset "medium" 1000).action = "BUY"
        ∨ (analysisOf c1_asset "medium" 1000).action = "HOLD") →
      (analysisOf c1_asset "medium" 1000).target_prices.stop_loss
          ≤ (analysisOf c1_asset "medium" 1000).current_price
      ∧ (analysisOf c1_asset "medium" 1000).current_price
          ≤ (analysisOf c1_asset "medium" 1000).target_prices.take_profit)
    ∧ ((analysisOf c1_asset "medium" 1000).action = "SELL" →
      (analysisOf c1_asset "medium" 1000).target_prices.take_profit
          ≤ (analysisOf c1_asset "medium" 1000).current_price
      ∧ (analysisOf c1_asset "medium" 1000).current_price
          ≤ (analysisOf c1_asset "medium" 1000).target_prices.stop_loss) :=
  c10_target_price_bracket c1_asset "medium" 1000
    (analysisOf c1_asset "medium" 1000) rfl
    (by show (0 : ℚ) < 100; norm_num)

/-- A two-entry keyed mapping (symbol → record), as the single-asset
endpoint's `data` container. -/
def c2_map : List (String × Option RawItem) :=
  [("BTC", some emptyRawItem), ("ETH", some emptyRawItem)]

/-- C2 counterexample: on a keyed mapping with 2 entries the map-shaped
normalizer produces exactly 1 canonical record (from `keys[0]`), not one
record per value of the mapping. -/
theorem c2_counterexample :
    (parse_single_crypto_data (some c2_map)).toList.length = 1
    ∧ c2_map.length = 2 ∧ (1 : ℕ) ≠ 2 :=
  ⟨rfl, rfl, by decide⟩

/-- C2 amended: for every map-shaped payload with at least one entry, the
map-shaped normalizer produces exactly one canonical Asset Quote — the one
normalized from the first entry in the mapping's iteration order (a falsy
entry value is first replaced by `{}`); every further entry is ignored,
and an empty mapping produces none. -/
theorem c2_amended_first_entry_only (k : String) (item : Option RawItem)
    (rest : List (String × Option RawItem)) :
    parse_single_crypto_data (some ((k, item) :: rest))
        = some (singleInfoOf (item.getD emptyRawItem))
    ∧ parse_single_crypto_data (some ([] : List (String × Option RawItem)))
        = none :=
  ⟨rfl, rfl⟩

/-- C3 counterexample: a record normalized from the list-shaped payload
has no `percent_change_1h`, `circulating_supply` or `max_supply` key at
all, so not every canonical record carries all eight numeric fields. -/
theorem c3_counterexample :
    (parse_crypto_data (some [emptyRawItem])).map
        (List.map CryptoInfo.percent_change_1h) = some [none]
    ∧ (parse_crypto_data (some [emptyRawItem])).map
        (List.map CryptoInfo.circulating_supply) = some [none]
    ∧ (parse_crypto_data (some [emptyRawItem])).map
        (List.map CryptoInfo.max_supply) = some [none] :=
  ⟨rfl, rfl, rfl⟩

/-- C3 amended: records from the map-shaped normalizer carry all eight
numeric fields (`price`, `market_cap`, `volume_24h`, `percent_change_1h`,
`percent_change_24h`, `percent_change_7d`, `circulating_supply`,
`max_supply`), each present and equal to 0 whenever the upstream field is
absent or null; records from the list-shaped normalizer carry only the
five fields `price`, `market_cap`, `volume_24h`, `percent_change_24h`,
`percent_change_7d` with the same defaulting, while `percent_change_1h`,
`circulating_supply` and `max_supply` are absent from them. -/
theorem c3_amended_field_presence (item : RawItem) :
    ((singleInfoOf item).price = some item.usd.price.toVal
      ∧ (singleInfoOf item).market_cap = some item.usd.market_cap.toVal
      ∧ (singleInfoOf item).volume_24h = some item.usd.volume_24h.toVal
      ∧ (singleInfoOf item).percent_change_1h
          = some item.usd.percent_change_1h.toVal
      ∧ (singleInfoOf item).percent_change_24h
          = some item.usd.percent_change_24h.toVal
      ∧ (singleInfoOf item).percent_change_7d
          = some item.usd.percent_change_7d.toVal
      ∧ (singleInfoOf item).circulating_supply
          = some item.circulating_supply.toVal
      ∧ (singleInfoOf item).max_supply = some item.max_supply.toVal)
    ∧ ((listInfoOf item).price = some item.usd.price.toVal
      ∧ (listInfoOf item).market_cap = some item.usd.market_cap.toVal
      ∧ (listInfoOf item).volume_24h = some item.usd.volume_24h.toVal
      ∧ (listInfoOf item).percent_change_24h
          = some item.usd.percent_change_24h.toVal
      ∧ (listInfoOf item).percent_change_7d
          = some item.usd.percent_change_7d.toVal
      ∧ (listInfoOf item).percent_change_1h = none
      ∧ (listInfoOf item).circulating_supply = none
      ∧ (listInfoOf item).max_supply = none)
    ∧ (∀ r : RawNum, r = .absent ∨ r = .null → r.toVal = 0) := by
  refine ⟨⟨rfl, rfl, rfl, rfl, rfl, rfl, rfl, rfl⟩,
    ⟨rfl, rfl, rfl, rfl, rfl, rfl, rfl, rfl⟩, ?_⟩
  rintro r (rfl | rfl) <;> rfl

/-- Concrete instantiation of `c3_amended_field_presence`: an absent
upstream field defaults to `0`. -/
theorem c3_amended_field_presence_witness : RawNum.toVal .absent = 0 :=
  (c3_amended_field_presence emptyRawItem).2.2 .absent (Or.inl rfl)

/-- C5 counterexample: a list-shaped record from which neither name nor
symbol can be extracted is not skipped — it is normalized with
`name = symbol = "Unknown"` and returned, so the batch is not shorter. -/
theorem c5_counterexample :
    emptyRawItem.name = RawStr.absent
    ∧ emptyRawItem.symbol = RawStr.absent
    ∧ parse_crypto_data (some [emptyRawItem]) = some [listInfoOf emptyRawItem]
    ∧ (listInfoOf emptyRawItem).name = some "Unknown"
    ∧ (listInfoOf emptyRawItem).symbol = some "Unknown"
    ∧ ((parse_crypto_data (some [emptyRawItem])).getD []).length ≠ 0 :=
  ⟨rfl, rfl, rfl, rfl, rfl, by decide⟩

/-- C5 amended: during normalization of a list-shaped payload no record is
skipped for a missing name or symbol: such a record is normalized with
`name` and `symbol` defaulting to `"Unknown"`, and the batch returns one
normalized record per input record. -/
theorem c5_amended_no_skip (items : List RawItem) :
    parse_crypto_data (some items) = some (items.map listInfoOf)
    ∧ ((parse_crypto_data (some items)).getD []).length = items.length
    ∧ (∀ item : RawItem, item.name = .absent →
        (listInfoOf item).name = some "Unknown")
    ∧ (∀ item : RawItem, item.symbol = .absent →
        (listInfoOf item).symbol = some "Unknown") := by
  refine ⟨rfl, by simp [parse_crypto_data], ?_, ?_⟩ <;>
    (rintro item h; simp [listInfoOf, h, RawStr.toName])

/-- Concrete instantiation of `c5_amended_no_skip` on a record with
absent name and symbol. -/
theorem c5_amended_no_skip_witness :
    (listInfoOf emptyRawItem).name = some "Unknown" :=
  (c5_amended_no_skip [emptyRawItem]).2.2.1 emptyRawItem rfl

/-- `rankLE` is transitive. -/
theorem rankLE_trans : ∀ (a b c : Analysis), rankLE a b → rankLE b c → rankLE a c := by
  intro a b c h1 h2
  simp only [rankLE, decide_eq_true_eq] at h1 h2 ⊢
  exact h2.trans h1

/-- `rankLE` is total. -/
theorem rankLE_total : ∀ (a b : Analysis), rankLE a b || rankLE b a := by
  intro a b
  simp only [rankLE, Bool.or_eq_true, decide_eq_true_eq]
  exact le_total _ _

/-- Every signal kept in the pre-sort opportunity pool has a positive
recommended amount (the filter at crypto_api.py 527). -/
theorem mem_rankPool {univ : List CryptoInfo} {risk : String} {budget : ℚ}
    {a : Analysis} (h : a ∈ rankPool univ risk budget) :
    0 < a.investment_range.recommended := by
  simp only [rankPool, List.mem_filterMap, enhanced_investment_analysis] at h
  obtain ⟨c, -, hc⟩ := h
  by_cases hpos : 0 < (analysisOf c risk budget).investment_range.recommended
  · rw [if_pos hpos] at hc
    cases hc
    exact hpos
  · rw [if_neg hpos] at hc
    cases hc

/-- C7: every element of the ranker's output has
`investment_range.recommended > 0`; the output is pairwise descending in
`recommended`; for each value `v`, the output's signals with
`recommended = v` form a sublist of the universe-ordered pool's signals
with that value (ties keep the original universe order — stable sort);
and the output holds at most 10 signals. -/
theorem c7_ranker_output (univ : List CryptoInfo) (budget : ℚ) (risk : String) :
    (∀ a ∈ analyze_portfolio_opportunities univ budget risk,
        0 < a.investment_range.recommended)
    ∧ (analyze_portfolio_opportunities univ budget risk).Pairwise
        (fun a b => b.investment_range.recommended ≤ a.investment_range.recommended)
    ∧ (∀ v : ℚ,
        List.Sublist
          ((analyze_portfolio_opportunities univ budget risk).filter
            (fun a => decide (a.investment_range.recommended = v)))
          ((rankPool univ risk budget).filter
            (fun a => decide (a.investment_range.recommended = v))))
    ∧ (analyze_portfolio_opportunities univ budget risk).length ≤ 10 := by
  unfold analyze_portfolio_opportunities
  refine ⟨?_, ?_, ?_, ?_⟩
  · intro a ha
    exact mem_rankPool (List.mem_mergeSort.mp (List.mem_of_mem_take ha))
  · have hs := List.sorted_mergeSort rankLE_trans rankLE_total
      (rankPool univ risk budget)
    have hs' : ((rankPool univ risk budget).mergeSort rankLE).Pairwise
        (fun a b =>
          b.investment_range.recommended ≤ a.investment_range.recommended) := by
      refine hs.imp ?_
      intro a b hab
      simpa [rankLE] using hab
    exact hs'.sublist (List.take_sublist 10 _)
  · intro v
    have hpw : ((rankPool univ risk budget).filter
        (fun a => decide (a.investment_range.recommended = v))).Pairwise
        (fun a b => rankLE a b) := by
      refine List.pairwise_of_forall_mem_list ?_
      intro a ha b hb
      have ha' := List.of_mem_filter ha
      have hb' := List.of_mem_filter hb
      simp only [decide_eq_true_eq] at ha' hb'
      simp [rankLE, ha', hb']
    have hfix : ((rankPool univ risk budget).filter
          (fun a => decide (a.investment_range.recommended = v))).filter
          (fun a => decide (a.investment_range.recommended = v))
        = (rankPool univ risk budget).filter
          (fun a => decide (a.investment_range.recommended = v)) := by
      apply List.filter_eq_self.mpr
      intro a ha
      exact (List.mem_filter.mp ha).2
    have hsub2 := (List.sublist_mergeSort rankLE_trans rankLE_total hpw
        (List.filter_sublist _)).filter
        (fun a => decide (a.investment_range.recommended = v))
    rw [hfix] at hsub2
    have hperm := (List.mergeSort_perm (rankPool univ risk budget)
        rankLE).filter (fun a => decide (a.investment_range.recommended = v))
    have heq := hsub2.eq_of_length hperm.length_eq.symm
    rw [heq]
    exact (List.take_sublist 10 _).filter _
  · exact List.length_take_le 10 _

/-- Concrete instantiation of `c7_ranker_output`: the output bound on a
one-asset universe. -/
theorem c7_ranker_output_witness :
    (analyze_portfolio_opportunities [c1_asset] 1000 "medium").length ≤ 10 :=
  (c7_ranker_output [c1_asset] 1000 "medium").2.2.2

/-- C9: the history-point parse never fails for the batch — its output is
never longer than its input; a record whose price is `None` (null/absent)
or not coercible to a (finite, hence representable) float is dropped; a
record whose selected timestamp is missing, or is a string that is not
parseable ISO-8601 after the trailing-`Z`-to-`+00:00` rewrite, is dropped;
and the record with timestamp `"2024-01-05T00:00:00Z"` and price
`"45000.5"` parses to the point `{instant 1704412800 s after the epoch
(2024-01-05T00:00:00 UTC), 45000.5}`. -/
theorem c9_history_parse_tolerance (records : List RawOHLCV) :
    (parse_history records).length ≤ records.length
    ∧ (∀ q : RawOHLCV, q.close = none → parsePoint q = none)
    ∧ (∀ (q : RawOHLCV) (p : PriceVal), q.close = some p → pyFloat p = none →
        parsePoint q = none)
    ∧ (∀ q : RawOHLCV,
        pyOr (pyOr q.time_open q.time_close) q.timestamp = none →
        parsePoint q = none)
    ∧ (∀ (q : RawOHLCV) (s : String),
        pyOr (pyOr q.time_open q.time_close) q.timestamp = some (.str s) →
        fromisoformat (replaceZ s.toList) = none →
        parsePoint q = none)
    ∧ parse_history
        [⟨some (.str "2024-01-05T00:00:00Z"), none, none,
          some (.str "45000.5")⟩]
      = [⟨(1704412800 : ℚ), 45000.5⟩] := by
  refine ⟨List.length_filterMap_le parsePoint records, ?_, ?_, ?_, ?_, ?_⟩
  · intro q h
    rcases htt : pyOr (pyOr q.time_open q.time_close) q.timestamp with _ | v <;>
      simp [parsePoint, htt, h]
  · intro q p h hf
    rcases htt : pyOr (pyOr q.time_open q.time_close) q.timestamp with _ | v
    · simp [parsePoint, htt]
    · by_cases htr : v.truthy = true
      · rcases hi : instantOf v with _ | ts
        · simp [parsePoint, htt, h, htr, hi]
        · simp [parsePoint, htt, h, htr, hi, hf]
      · simp [parsePoint, htt, h, htr]
  · intro q h
    simp [parsePoint, h]
  · intro q s h hf
    by_cases htr : TimeVal.truthy (.str s) = true
    · have hi : instantOf (.str s) = none := by
        have hf' : fromisoformat (replaceZ s.data) = none := hf
        simp [instantOf, hf']
      rcases hc : q.close with _ | p
      · simp [parsePoint, h, hc]
      · simp [parsePoint, h, hc, htr, hi]
    · rcases hc : q.close with _ | p
      · simp [parsePoint, h, hc]
      · simp [parsePoint, h, hc, htr]
  · have hdt : fromisoformat (replaceZ "2024-01-05T00:00:00Z".toList)
        = some ⟨2024, 1, 5, 0, 0, 0, some 0⟩ := by decide
    have hep : (PyDateTime.mk 2024 1 5 0 0 0 (some 0)).toEpoch
        = 1704412800 := by decide
    have h1 : instantOf (.str "2024-01-05T00:00:00Z")
        = some ((1704412800 : ℤ) : ℚ) := by
      simp only [instantOf, hdt, Option.map_some', hep]
    have h2 : pyFloat (.str "45000.5") = some (45000.5 : ℚ) := by
      have h : pyFloat (.str "45000.5")
          = some ((1 : ℚ) * (((45000 : ℕ) : ℚ) + ((5 : ℕ) : ℚ) / 10 ^ (1 : ℕ))) :=
        rfl
      rw [h]
      norm_num
    have ht : TimeVal.truthy (.str "2024-01-05T00:00:00Z") = true := by decide
    simp only [parse_history, List.filterMap_cons, List.filterMap_nil,
      parsePoint, pyOr, ht, if_pos, h1, h2]
    norm_num

/-- Concrete instantiation of `c9_history_parse_tolerance`: a record with
a `null` price is dropped. -/
theorem c9_history_parse_tolerance_witness :
    parsePoint ⟨some (.str "2024-01-05T00:00:00Z"), none, none, none⟩ = none :=
  (c9_history_parse_tolerance []).2.1
    ⟨some (.str "2024-01-05T00:00:00Z"), none, none, none⟩ rfl
